import Mathlib

/-!
Shallow embedding of `kentci/models.py` (Django models of the Kentci.az
e-commerce back office).

Numeric conventions: Django `DecimalField` values are embedded as `ℚ`,
`PositiveIntegerField` / `PositiveSmallIntegerField` as `ℕ`,
`DateTimeField` as `Int` (an abstract timestamp), `BooleanField` as `Bool`.
`TextChoices` enumerations become inductive types.  Database rows reachable
through a related manager are passed explicitly as lists; the post-save
signals become functions from the pre-state to the post-state.
-/

namespace Kentci

/-- `Order.Status` text choices: pending / completed / cancelled. -/
inductive OrderStatus where
  | pending
  | completed
  | cancelled
deriving DecidableEq, Repr

/-- `Payment.Status` text choices: pending / completed / failed. -/
inductive PaymentStatus where
  | pending
  | completed
  | failed
deriving DecidableEq, Repr

/-- `BaseModel`: the shared soft-delete machinery.  `data` stands for the
concrete subclass's own fields; `updated_at` has `auto_now=True`, so every
`save()` stamps it with the current time. -/
structure BaseRecord (α : Type) where
  is_deleted : Bool
  updated_at : Int
  data : α
deriving DecidableEq, Repr

/-- `Model.save()` on a `BaseModel` subclass: the `auto_now` field
`updated_at` is set to the current time, everything else is stored as is. -/
def BaseRecord.save {α : Type} (now : Int) (r : BaseRecord α) : BaseRecord α :=
  { r with updated_at := now }

/-- `BaseModel.delete`: sets `is_deleted = True` and calls `self.save()`
instead of removing the row. -/
def BaseRecord.delete {α : Type} (now : Int) (r : BaseRecord α) : BaseRecord α :=
  BaseRecord.save now { r with is_deleted := true }

/-- `BaseModelManager.get_queryset`: the default query set filters
`is_deleted=False`. -/
def get_queryset {α : Type} (rows : List (BaseRecord α)) : List (BaseRecord α) :=
  rows.filter (fun r => !r.is_deleted)

/-- `all_objects = models.Manager()`: the unfiltered query set, deleted
rows included. -/
def all_objects {α : Type} (rows : List (BaseRecord α)) : List (BaseRecord α) :=
  rows

/-- `Coupon`: code, percentage discount, active flag and validity window. -/
structure Coupon where
  discount_percent : Nat
  active : Bool
  valid_from : Int
  valid_to : Int
deriving DecidableEq, Repr

/-- `Coupon.is_valid`: `self.active and self.valid_from <= now <= self.valid_to`. -/
def Coupon.is_valid (c : Coupon) (now : Int) : Bool :=
  c.active && (decide (c.valid_from ≤ now) && decide (now ≤ c.valid_to))

/-- `Coupon.apply_discount`: a valid coupon scales the amount by
`1 - discount_percent / 100`; an invalid one returns it unchanged. -/
def Coupon.apply_discount (c : Coupon) (now : Int) (total_amount : ℚ) : ℚ :=
  if c.is_valid now then total_amount * (1 - (c.discount_percent : ℚ) / 100)
  else total_amount

/-- `Product`: the scalar fields the derived properties and signals read or
write (`price`, `quantity`, `is_active`, `rating_average`, `review_count`). -/
structure Product where
  price : ℚ
  quantity : Nat
  is_active : Bool
  rating_average : ℚ
  review_count : Nat
  is_deleted : Bool
  updated_at : Int
deriving DecidableEq, Repr

/-- `Product.stock_status`: quantity 0 is out of stock, below 5 is low
stock, otherwise in stock. -/
def Product.stock_status (p : Product) : String :=
  if p.quantity = 0 then "Out of stock"
  else if p.quantity < 5 then "Low stock"
  else "In stock"

/-- `Product.is_available`: active and positively stocked. -/
def Product.is_available (p : Product) : Bool :=
  p.is_active && decide (p.quantity > 0)

/-- `Review`: rating, approval flag, and the soft-delete flag inherited
from `BaseModel` (the default manager hides deleted reviews). -/
structure Review where
  rating : Nat
  approved : Bool
  is_deleted : Bool
deriving DecidableEq, Repr

/-- `Review.rating` field validation: `MinValueValidator(1)` and
`MaxValueValidator(5)`. -/
def validate_rating (r : Nat) : Bool :=
  decide (1 ≤ r) && decide (r ≤ 5)

/-- `instance.product.reviews`: the reverse related manager is built on the
model's default manager, so it filters `is_deleted=False`. -/
def visible_reviews (rows : List Review) : List Review :=
  rows.filter (fun r => !r.is_deleted)

/-- `instance.product.reviews.filter(approved=True)`. -/
def approved_reviews (rows : List Review) : List Review :=
  (visible_reviews rows).filter (fun r => r.approved)

/-- `reviews.aggregate(models.Avg('rating'))['rating__avg'] or 0`:
the SQL average of the ratings, with the empty aggregate (`None`, falsy)
replaced by `0`. -/
def avg_rating (rows : List Review) : ℚ :=
  if rows.length = 0 then 0
  else (rows.map (fun r => (r.rating : ℚ))).sum / (rows.length : ℚ)

/-- `update_product_rating` (post-save receiver on `Review`): recounts the
approved reviews, recomputes the average, and saves the product. -/
def update_product_rating (now : Int) (db_reviews : List Review)
    (p : Product) : Product :=
  let reviews := approved_reviews db_reviews
  { p with review_count := reviews.length
           rating_average := avg_rating reviews
           updated_at := now }

/-- Saving a review: after the row is written the database holds
`r :: others`, and the post-save signal fires on the product. -/
def save_review (now : Int) (r : Review) (others : List Review)
    (p : Product) : Product :=
  update_product_rating now (r :: others) p

/-- `OrderItem`: quantity and unit price. -/
structure OrderItem where
  quantity : Nat
  price : ℚ
deriving DecidableEq, Repr

/-- `OrderItem.get_total_price = self.quantity * self.price`. -/
def OrderItem.get_total_price (it : OrderItem) : ℚ :=
  (it.quantity : ℚ) * it.price

/-- `Order`: status, optional coupon, shipping cost, and the reverse
`items` relation materialised as a list. -/
structure Order where
  status : OrderStatus
  coupon : Option Coupon
  shipping_cost : ℚ
  items : List OrderItem
  is_deleted : Bool
  updated_at : Int
deriving DecidableEq, Repr

/-- `Order.total_price`: sum of the items' totals plus shipping, and when a
coupon is attached the coupon's `apply_discount` is run on that total. -/
def Order.total_price (o : Order) (now : Int) : ℚ :=
  let total := (o.items.map OrderItem.get_total_price).sum + o.shipping_cost
  match o.coupon with
  | some c => c.apply_discount now total
  | none => total

/-- `Payment`: status and amount (the one-to-one `order` link is passed
explicitly to the signal). -/
structure Payment where
  status : PaymentStatus
  amount : ℚ
deriving DecidableEq, Repr

/-- `Order.is_paid`: a payment exists and its status is completed. -/
def Order.is_paid (payment : Option Payment) : Bool :=
  match payment with
  | some p => p.status == PaymentStatus.completed
  | none => false

/-- `update_order_status` (post-save receiver on `Payment`): when the saved
payment's status is completed, the order's status is set to completed and
the order is saved (stamping `updated_at`); otherwise nothing happens. -/
def update_order_status (now : Int) (p : Payment) (o : Order) : Order :=
  if p.status = PaymentStatus.completed then
    { o with status := OrderStatus.completed, updated_at := now }
  else o

/-- `CartItem`: requested quantity and the referenced product. -/
structure CartItem where
  quantity : Nat
  product : Product
deriving DecidableEq, Repr

/-- `CartItem.is_available`: the product has at least the requested
quantity in stock. -/
def CartItem.is_available (c : CartItem) : Bool :=
  decide (c.product.quantity ≥ c.quantity)

/-- `CartItem.save`: a quantity above the product's stock is clamped down
to the stock before the row is written. -/
def CartItem.save (c : CartItem) : CartItem :=
  if c.quantity > c.product.quantity then { c with quantity := c.product.quantity }
  else c

/-- Claim C1: a payment saved with status completed makes the post-save
reaction set the associated order's status to completed, so after the save
the order's status is completed. -/
theorem payment_completed_completes_order (now : Int) (p : Payment) (o : Order)
    (h : p.status = PaymentStatus.completed) :
    (update_order_status now p o).status = OrderStatus.completed := by
  simp [update_order_status, h]

/-- Witness for C1 at a concrete pending order and completed payment. -/
theorem payment_completed_completes_order_witness :
    (update_order_status 0 ⟨PaymentStatus.completed, 10⟩
      ⟨OrderStatus.pending, none, 0, [], false, 0⟩).status = OrderStatus.completed :=
  payment_completed_completes_order 0 ⟨PaymentStatus.completed, 10⟩
    ⟨OrderStatus.pending, none, 0, [], false, 0⟩ rfl

/-- Claim C2: an order's total price is the sum over its items of
quantity times price, plus the shipping cost, with the coupon's discount
run on that total when a coupon is attached and no discount step
otherwise. -/
theorem order_total_price_spec (o : Order) (now : Int) :
    o.total_price now =
      match o.coupon with
      | some c => c.apply_discount now
          ((o.items.map (fun it => (it.quantity : ℚ) * it.price)).sum + o.shipping_cost)
      | none =>
          (o.items.map (fun it => (it.quantity : ℚ) * it.price)).sum + o.shipping_cost := by
  cases h : o.coupon <;> simp only [Order.total_price, h] <;> rfl

/-- Claim C3: `apply_discount` returns `total * (1 - discount_percent/100)`
exactly when the coupon is active and `now` lies in its validity window,
and returns the total unchanged otherwise. -/
theorem apply_discount_spec (c : Coupon) (now : Int) (t : ℚ) :
    c.apply_discount now t =
      if c.active = true ∧ c.valid_from ≤ now ∧ now ≤ c.valid_to
      then t * (1 - (c.discount_percent : ℚ) / 100)
      else t := by
  unfold Coupon.apply_discount Coupon.is_valid
  by_cases ha : c.active = true <;> by_cases h1 : c.valid_from ≤ now <;>
    by_cases h2 : now ≤ c.valid_to <;> simp [ha, h1, h2]

/-- Claim C4: every review save (whatever the saved review's approval flag)
makes the reaction set the product's review count to the number of approved
visible reviews and its rating average to their arithmetic mean, with 0
when there is no approved review. -/
theorem save_review_recomputes_rating (now : Int) (r : Review)
    (others : List Review) (p : Product) :
    (save_review now r others p).review_count = (approved_reviews (r :: others)).length ∧
    (save_review now r others p).rating_average =
      (if (approved_reviews (r :: others)).length = 0 then 0
       else ((approved_reviews (r :: others)).map (fun x => (x.rating : ℚ))).sum /
         ((approved_reviews (r :: others)).length : ℚ)) := by
  constructor <;> simp [save_review, update_product_rating, avg_rating]

/-- Counterexample to C5 as stated: a cancelled order does move to
completed when its payment is saved with status completed. -/
theorem cancelled_order_completes_cex :
    (⟨OrderStatus.cancelled, none, 0, [], false, 0⟩ : Order).status = OrderStatus.cancelled ∧
    (update_order_status 0 ⟨PaymentStatus.completed, 5⟩
        ⟨OrderStatus.cancelled, none, 0, [], false, 0⟩).status = OrderStatus.completed :=
  ⟨rfl, rfl⟩

/-- Claim C5 amended: the payment post-save reaction does not guard on the
order's current status, so saving a completed payment moves even a
cancelled order to completed. -/
theorem update_order_status_unguarded (now : Int) (p : Payment) (o : Order)
    (hc : o.status = OrderStatus.cancelled)
    (hp : p.status = PaymentStatus.completed) :
    (update_order_status now p o).status = OrderStatus.completed := by
  simp [update_order_status, hp]

/-- Witness for the amended C5 at a concrete cancelled order. -/
theorem update_order_status_unguarded_witness :
    (update_order_status 1 ⟨PaymentStatus.completed, 5⟩
        ⟨OrderStatus.cancelled, none, 0, [], false, 0⟩).status = OrderStatus.completed :=
  update_order_status_unguarded 1 ⟨PaymentStatus.completed, 5⟩
    ⟨OrderStatus.cancelled, none, 0, [], false, 0⟩ rfl rfl

/-- Counterexample to C6 as stated: `delete` calls `save()`, whose
`auto_now` stamp changes `updated_at`, so not every other field is
unchanged (here it moves from 0 to 1). -/
theorem delete_changes_updated_at_cex :
    (BaseRecord.delete 1 (⟨false, 0, (42 : Nat)⟩ : BaseRecord Nat)).is_deleted = true ∧
    (BaseRecord.delete 1 (⟨false, 0, (42 : Nat)⟩ : BaseRecord Nat)).updated_at = 1 ∧
    (⟨false, 0, (42 : Nat)⟩ : BaseRecord Nat).updated_at = 0 :=
  ⟨rfl, rfl, rfl⟩

/-- Claim C6 amended: `delete` sets `is_deleted` without removing the row:
the deleted record is absent from the default query set, present in the
all-objects query set, and every field other than `is_deleted` and the
auto-now `updated_at` timestamp is unchanged. -/
theorem delete_soft_spec {α : Type} (now : Int) (r : BaseRecord α)
    (rows : List (BaseRecord α)) (hmem : BaseRecord.delete now r ∈ rows) :
    (BaseRecord.delete now r).is_deleted = true ∧
    (BaseRecord.delete now r).data = r.data ∧
    BaseRecord.delete now r ∉ get_queryset rows ∧
    BaseRecord.delete now r ∈ all_objects rows := by
  refine ⟨rfl, rfl, ?_, hmem⟩
  intro hq
  have h := (List.mem_filter.mp hq).2
  simp [BaseRecord.delete, BaseRecord.save] at h

/-- Witness for the amended C6 at a concrete record and single-row table. -/
theorem delete_soft_spec_witness :
    (BaseRecord.delete 1 (⟨false, 0, (42 : Nat)⟩ : BaseRecord Nat)).is_deleted = true ∧
    (BaseRecord.delete 1 (⟨false, 0, (42 : Nat)⟩ : BaseRecord Nat)).data =
      (⟨false, 0, (42 : Nat)⟩ : BaseRecord Nat).data ∧
    BaseRecord.delete 1 (⟨false, 0, (42 : Nat)⟩ : BaseRecord Nat) ∉
      get_queryset [BaseRecord.delete 1 (⟨false, 0, (42 : Nat)⟩ : BaseRecord Nat)] ∧
    BaseRecord.delete 1 (⟨false, 0, (42 : Nat)⟩ : BaseRecord Nat) ∈
      all_objects [BaseRecord.delete 1 (⟨false, 0, (42 : Nat)⟩ : BaseRecord Nat)] :=
  delete_soft_spec 1 ⟨false, 0, 42⟩ [BaseRecord.delete 1 ⟨false, 0, 42⟩] (by simp)

/-- Claim C7: the stock status is out of stock exactly at quantity 0, low
stock exactly for quantities 1 to 4, and in stock exactly from 5 up. -/
theorem stock_status_spec (p : Product) :
    (p.stock_status = "Out of stock" ↔ p.quantity = 0) ∧
    (p.stock_status = "Low stock" ↔ 1 ≤ p.quantity ∧ p.quantity < 5) ∧
    (p.stock_status = "In stock" ↔ 5 ≤ p.quantity) := by
  unfold Product.stock_status
  by_cases h0 : p.quantity = 0
  · refine ⟨?_, ?_, ?_⟩ <;> simp [h0] <;> decide
  · by_cases h5 : p.quantity < 5
    · refine ⟨?_, ?_, ?_⟩ <;> simp [h0, h5] <;> first | decide | omega
    · refine ⟨?_, ?_, ?_⟩ <;> simp [h0, h5] <;> first | decide | omega

/-- Claim C8: field validation of a review's rating accepts exactly the
ratings from 1 to 5; in particular 0 and 6 are rejected. -/
theorem rating_validators_spec :
    (∀ r : Nat, validate_rating r = true ↔ 1 ≤ r ∧ r ≤ 5) ∧
    validate_rating 0 = false ∧ validate_rating 6 = false := by
  refine ⟨?_, rfl, rfl⟩
  intro r
  simp [validate_rating]

/-- Claim C9: saving a cart item clamps the quantity to the product's
stock, so afterwards the quantity is at most the stock and the derived
availability holds. -/
theorem cart_item_save_clamps (c : CartItem) :
    (CartItem.save c).quantity ≤ c.product.quantity ∧
    (CartItem.save c).is_available = true := by
  unfold CartItem.save CartItem.is_available
  by_cases h : c.quantity > c.product.quantity <;> simp [h] <;> omega

/-- Claim C10: a payment saved with status pending or failed leaves the
associated order entirely unchanged. -/
theorem non_completed_payment_frame (now : Int) (p : Payment) (o : Order)
    (h : p.status = PaymentStatus.pending ∨ p.status = PaymentStatus.failed) :
    update_order_status now p o = o := by
  have hne : p.status ≠ PaymentStatus.completed := by
    rcases h with h | h <;> simp [h]
  simp [update_order_status, hne]

/-- Witness for C10 at a concrete pending payment. -/
theorem non_completed_payment_frame_witness :
    update_order_status 0 ⟨PaymentStatus.pending, 3⟩
        ⟨OrderStatus.pending, none, 2, [⟨1, 7⟩], false, 0⟩ =
      ⟨OrderStatus.pending, none, 2, [⟨1, 7⟩], false, 0⟩ :=
  non_completed_payment_frame 0 ⟨PaymentStatus.pending, 3⟩
    ⟨OrderStatus.pending, none, 2, [⟨1, 7⟩], false, 0⟩ (Or.inl rfl)

end Kentci
